import Mathlib

/-!
# Verification of the graphql-sentinel scanner engine

Shallow embedding of `packages/scanner-engine/src` (utils.ts, graphUtils.ts,
dosScanner.ts, bolaTester.ts, schemaFetcher.ts, index.ts) in Lean 4.

Modelling conventions:
* JavaScript JSON values are the inductive `Json`; `undefined` is `Option.none`.
* HTTP requests performed with axios are modelled by environment records that
  map each probe to its outcome: `Except JsError Body`, where `.error` is the
  exception thrown by axios (non-2xx status, network failure, timeout) and
  `.ok` is the parsed 2xx response body.
* Finding ids (random UUIDs), timestamps and the free-form `evidence` payload
  attached to findings are reporting data with no control-flow influence; they
  are not modelled.  A `Finding` carries severity, description, recommendation.
* The external `graphql` library's `print` of a document and `buildClientSchema`
  are external dependencies; schema parsing is modelled by an environment
  function.  All repository code is translated directly.
-/

/-- JavaScript/JSON values as returned inside GraphQL response bodies. -/
inductive Json where
  | null
  | bool (b : Bool)
  | num (n : Int)
  | str (s : String)
  | arr (elems : List Json)
  | obj (fields : List (String × Json))

/-- JavaScript truthiness of a `Json` value. -/
def Json.truthy : Json → Bool
  | .null => false
  | .bool b => b
  | .num n => n != 0
  | .str s => s != ""
  | .arr _ => true
  | .obj _ => true

/-- Truthiness of a possibly-`undefined` value (`undefined` is falsy). -/
def optTruthy : Option Json → Bool
  | none => false
  | some j => j.truthy

/-- `x && typeof x === 'object' && x !== null`: true exactly for arrays and
objects (null is excluded by the truthiness conjunct). -/
def isObjectLike : Option Json → Bool
  | some (.arr _) => true
  | some (.obj _) => true
  | _ => false

/-- `Array.isArray` on a possibly-`undefined` value. -/
def isArrayLike : Option Json → Bool
  | some (.arr _) => true
  | _ => false

/-- Property lookup `v?.[name]`: defined only on objects (first binding wins);
on arrays/scalars a string key yields `undefined`. -/
def Json.lookup (v : Json) (name : String) : Option Json :=
  match v with
  | .obj fields =>
    match fields.find? (fun kv => kv.1 = name) with
    | some kv => some kv.2
    | none => none
  | _ => none

/-- `Object.keys`: field names of an object, index strings of an array. -/
def Json.jsKeys : Json → List String
  | .obj fields => fields.map (fun kv => kv.1)
  | .arr elems => (List.range elems.length).map (fun i => toString i)
  | _ => []

/-- Character-list prefix test (structural recursion, kernel-reducible). -/
def listIsInit : List Char → List Char → Bool
  | [], _ => true
  | _ :: _, [] => false
  | p :: ps, c :: cs => p = c && listIsInit ps cs

/-- Character-list substring test. -/
def listContainsSub (needle : List Char) : List Char → Bool
  | [] => needle.isEmpty
  | c :: t => listIsInit needle (c :: t) || listContainsSub needle t

/-- `s.toLowerCase()` as a character list (ASCII, as all compared needles are). -/
def lowerChars (s : String) : List Char :=
  s.toList.map Char.toLower

/-- `s.toLowerCase()`. -/
def strLower (s : String) : String :=
  String.mk (lowerChars s)

/-- JavaScript `haystack.includes(needle)` (substring containment). -/
def strContains (haystack needle : String) : Bool :=
  listContainsSub needle.toList haystack.toList

/-- `haystack.toLowerCase().includes(needle)` for an already-lowercase needle. -/
def containsCI (haystack needle : String) : Bool :=
  listContainsSub needle.toList (lowerChars haystack)

/-- Finding severities (shared-types). -/
inductive Severity where
  | Critical
  | High
  | Medium
  | Low
  | Info
deriving DecidableEq, Repr

/-- A vulnerability finding (utils.ts `createFinding` output; the random `id`
and the optional `evidence` map are not modelled). -/
structure Finding where
  severity : Severity
  description : String
  recommendation : String
deriving DecidableEq, Repr

/-- utils.ts `createFinding`. -/
def createFinding (severity : Severity) (description recommendation : String) : Finding :=
  { severity := severity, description := description, recommendation := recommendation }

/-- One GraphQL error object `{message: string}` from a response body. -/
structure GQLError where
  message : String
deriving DecidableEq, Repr

/-- A parsed GraphQL-shaped response body `{data?, errors?, message?}`. -/
structure Body where
  data : Option Json
  errors : Option (List GQLError)
  message : Option String

/-- The `response` field of an `AxiosError` (present when an HTTP response
with a non-2xx status arrived). -/
structure AxResponse where
  status : Nat
  statusText : Option String
  data : Option Body

/-- An `AxiosError`: optional HTTP response, optional error `code`
(e.g. `ECONNABORTED`), and the `Error` message. -/
structure AxiosErrorV where
  response : Option AxResponse
  code : Option String
  message : String

/-- A thrown JavaScript value as seen by `catch (error)`. -/
inductive JsError where
  | axios (e : AxiosErrorV)
  | jsErr (message : String)
  | str (s : String)
  | other

/-- `${error.response?.status}` (template-string rendering). -/
def axiosStatusStr (e : AxiosErrorV) : String :=
  match e.response with
  | some r => toString r.status
  | none => "undefined"

/-- The GraphQL error list of an axios error body, `error.response?.data?.errors`. -/
def axiosGqlErrors (e : AxiosErrorV) : Option (List GQLError) :=
  (e.response.bind (fun r => r.data)).bind (fun d => d.errors)

/-- utils.ts `getErrorMessage`, final branches of the AxiosError block: the
timeout check, then the `instanceof Error` fallthrough (an AxiosError is an
Error, so its message is returned). -/
def getErrorMessageTimeout (e : AxiosErrorV) : String :=
  if e.code = some "ECONNABORTED" || containsCI e.message "timeout" then
    "Timeout de la petición"
  else e.message

/-- utils.ts `getErrorMessage`, branch `if (error.code) return Network Error: ...`. -/
def getErrorMessageCode (e : AxiosErrorV) : String :=
  match e.code with
  | some c =>
    if c = "" then getErrorMessageTimeout e else "Network Error: " ++ c
  | none => getErrorMessageTimeout e

/-- utils.ts `getErrorMessage`, branch `if (error.response?.statusText) ...`. -/
def getErrorMessageStatusText (e : AxiosErrorV) : String :=
  match e.response.bind (fun r => r.statusText) with
  | some st =>
    if st = "" then getErrorMessageCode e
    else "HTTP Error " ++ axiosStatusStr e ++ ": " ++ st
  | none => getErrorMessageCode e

/-- utils.ts `getErrorMessage`. -/
def getErrorMessage : JsError → String
  | .axios e =>
    match axiosGqlErrors e with
    | some errs =>
      "GraphQL Error: " ++ String.intercalate ", " (errs.map (fun er => er.message))
    | none =>
      match (e.response.bind (fun r => r.data)).bind (fun d => d.message) with
      | some m =>
        if m = "" then getErrorMessageStatusText e
        else "API Error " ++ axiosStatusStr e ++ ": " ++ m
      | none => getErrorMessageStatusText e
  | .jsErr m => m
  | .str s => s
  | .other => "Error desconocido"

/-- dosScanner.ts `handlePotentialDosError`: the GraphQL-error limit test. -/
def dosLimitErrors (gqlErrors : Option (List GQLError)) : Bool :=
  match gqlErrors with
  | some errs =>
    errs.any (fun e =>
      containsCI e.message "limit" || containsCI e.message "complexity" ||
        containsCI e.message "depth")
  | none => false

/-- The cast `error as AxiosError` followed by `.response?.data?.errors`. -/
def errorGqlErrorsOf : JsError → Option (List GQLError)
  | .axios e => axiosGqlErrors e
  | _ => none

/-- dosScanner.ts `handlePotentialDosError`. -/
def handlePotentialDosError (error : JsError) (checkType : String)
    (findings : List Finding) : List Finding :=
  let gqlErrors := errorGqlErrorsOf error
  let errorMessage := getErrorMessage error
  if dosLimitErrors gqlErrors then findings
  else if containsCI errorMessage "timeout" then
    findings ++ [createFinding .Medium
      ("Timeout en Chequeo DoS (" ++ checkType ++ ")")
      ("La petición para el chequeo DoS (" ++ checkType ++ ") excedió el tiempo límite.")]
  else
    findings ++ [createFinding .Low
      ("Error Inesperado en Chequeo DoS (" ++ checkType ++ ")")
      ("La petición causó un error (" ++ errorMessage ++ ").")]

/-- A GraphQL type reference: a named type possibly wrapped in List/NonNull. -/
inductive TypeRef where
  | named (name : String)
  | list (ofType : TypeRef)
  | nonNull (ofType : TypeRef)
deriving DecidableEq, Repr

/-- `getNamedType`: unwrap all List/NonNull wrappers down to the type name. -/
def getNamedTypeName : TypeRef → String
  | .named n => n
  | .list t => getNamedTypeName t
  | .nonNull t => getNamedTypeName t

/-- `isListType` on a type reference. -/
def isListTypeB : TypeRef → Bool
  | .list _ => true
  | _ => false

/-- `isNonNullType` on a type reference. -/
def isNonNullTypeB : TypeRef → Bool
  | .nonNull _ => true
  | _ => false

/-- An argument declaration of a schema field. -/
structure ArgDef where
  name : String
  type : TypeRef
deriving DecidableEq, Repr

/-- A field declaration of a schema object type (declaration order preserved). -/
structure FieldDef where
  name : String
  args : List ArgDef
  type : TypeRef
deriving DecidableEq, Repr

/-- An object type definition of the schema. -/
structure ObjectTypeDef where
  name : String
  fields : List FieldDef
deriving DecidableEq, Repr

/-- An in-memory `GraphQLSchema`: object type definitions, scalar type names,
and the names of the query and mutation root types. -/
structure GSchema where
  objects : List ObjectTypeDef
  scalars : List String
  queryTypeName : Option String
  mutationTypeName : Option String
deriving DecidableEq, Repr

/-- Look up an object type definition by name. -/
def GSchema.getObject (s : GSchema) (name : String) : Option ObjectTypeDef :=
  s.objects.find? (fun o => o.name = name)

/-- `schema.getQueryType()`. -/
def GSchema.getQueryType (s : GSchema) : Option ObjectTypeDef :=
  s.queryTypeName.bind s.getObject

/-- `schema.getMutationType()`. -/
def GSchema.getMutationType (s : GSchema) : Option ObjectTypeDef :=
  s.mutationTypeName.bind s.getObject

/-- `isObjectType` of the named type in a schema. -/
def GSchema.isObjectName (s : GSchema) (name : String) : Bool :=
  s.objects.any (fun o => o.name = name)

/-- The operation kind of a BOLA point of interest. -/
inductive OperationType where
  | query
  | mutation
deriving DecidableEq, Repr

/-- String form used in test keys and descriptions (`'query' | 'mutation'`). -/
def OperationType.toStr : OperationType → String
  | .query => "query"
  | .mutation => "mutation"

/-- types.ts `BolaPointOfInterest`. -/
structure BolaPointOfInterest where
  fieldName : String
  idArgName : String
  operation : OperationType
  returnTypeName : String
deriving DecidableEq, Repr

/-- graphUtils.ts `findBolaPointsOfInterest`, inner `processFields`: a field
qualifies when some argument's named type is `ID` or its name contains `id`
(case-insensitive); the first such argument is selected. -/
def processBolaFields (targetObjectTypes : Option (List String))
    (fields : List FieldDef) (operation : OperationType) : List BolaPointOfInterest :=
  fields.foldl
    (fun points field =>
      match field.args.find? (fun arg =>
          getNamedTypeName arg.type = "ID" || containsCI arg.name "id") with
      | some idArg =>
        let returnTypeName := getNamedTypeName field.type
        if targetObjectTypes.isNone || targetObjectTypes.getD [] = [] ||
            (targetObjectTypes.getD []).contains returnTypeName then
          points ++ [{ fieldName := field.name, idArgName := idArg.name,
                       operation := operation, returnTypeName := returnTypeName }]
        else points
      | none => points)
    []

/-- graphUtils.ts `findBolaPointsOfInterest`. -/
def findBolaPointsOfInterest (schema : GSchema)
    (targetObjectTypes : Option (List String)) : List BolaPointOfInterest :=
  let queryFields := (schema.getQueryType.map (fun o => o.fields)).getD []
  let mutationFields := (schema.getMutationType.map (fun o => o.fields)).getD []
  processBolaFields targetObjectTypes queryFields .query ++
    processBolaFields targetObjectTypes mutationFields .mutation

/-- graphUtils.ts `generateDeepQuery`, the predicate of the greedy field
search: the field must not be a list at the outer level, must have no
required (NonNull) argument, and must return an Object type different from
the current type. -/
def deepFieldOk (s : GSchema) (currentName : String) (f : FieldDef) : Bool :=
  let outerList :=
    match f.type with
    | .list _ => true
    | .nonNull inner => isListTypeB inner
    | _ => false
  let namedType := getNamedTypeName f.type
  !outerList && !(f.args.any (fun a => isNonNullTypeB a.type)) &&
    (s.isObjectName namedType && namedType != currentName)

/-- graphUtils.ts `generateDeepQuery`, the greedy path loop (`depth` is the
remaining iteration budget; the loop breaks when no field qualifies or the
next type has no field table). -/
def deepPath (s : GSchema) (current : ObjectTypeDef) : Nat → List String
  | 0 => []
  | Nat.succ n =>
    match current.fields.find? (deepFieldOk s current.name) with
    | none => []
    | some f =>
      f.name ::
        (match s.getObject (getNamedTypeName f.type) with
         | some next => deepPath s next n
         | none => [])

/-- The schema-derived path of `generateDeepQuery` (empty when the schema is
null or its query type is unusable). -/
def deepQueryPath (depth : Nat) (schema : Option GSchema) : List String :=
  match schema with
  | none => []
  | some s =>
    match s.getQueryType with
    | some qt => deepPath s qt depth
    | none => []

/-- The synthetic field names `node, child0, child1, ...` of the generic deep
query (one per loop iteration). -/
def syntheticNames (depth : Nat) : List String :=
  (List.range depth).map (fun i => if i = 0 then "node" else "child" ++ toString (i - 1))

/-- Shared string-building shape of both branches of `generateDeepQuery`:
`'{'`, then `' <name> {'` per field, then `' id __typename '`, then `' }'`
per field, then `' }'`. -/
def renderDeepQuery (names : List String) : String :=
  (names.foldl (fun q fieldName => q ++ " " ++ fieldName ++ " \x7b") "\x7b") ++
    " id __typename " ++
    (names.foldl (fun q _ => q ++ " \x7d") "") ++ " \x7d"

/-- graphUtils.ts `generateDeepQuery`. -/
def generateDeepQuery (depth : Nat) (schema : Option GSchema) : String :=
  let path := deepQueryPath depth schema
  if path.length > 0 then renderDeepQuery path
  else renderDeepQuery (syntheticNames depth)

/-- graphUtils.ts `findListFields`: the hard-coded fallback list names. -/
def commonListNames : List String :=
  ["users", "posts", "items", "orders", "products", "nodes", "edges",
   "connections", "list", "all", "get"]

/-- The pagination-argument allowlist (lowercase). -/
def paginationArgNames : List String :=
  ["first", "last", "before", "after", "limit", "offset"]

/-- graphUtils.ts `findListFields`, per-field test: after unwrapping one
NonNull the type is a List, and no required (NonNull) argument has a name
outside the pagination allowlist (case-insensitive). -/
def listFieldQualifies (field : FieldDef) : Bool :=
  let unwrapped :=
    match field.type with
    | .nonNull inner => inner
    | t => t
  let isList := isListTypeB unwrapped
  let requiredArgs := field.args.filter (fun arg => isNonNullTypeB arg.type)
  let hasRequiredNonPaginationArgs :=
    requiredArgs.any (fun arg => !(paginationArgNames.contains (strLower arg.name)))
  isList && !hasRequiredNonPaginationArgs

/-- graphUtils.ts `findListFields`. -/
def findListFields (schema : Option GSchema) : List String :=
  match schema with
  | none => commonListNames
  | some s =>
    let listFields :=
      match s.getQueryType with
      | some qt => (qt.fields.filter listFieldQualifies).map (fun f => f.name)
      | none => []
    if listFields.length > 0 then listFields else commonListNames

/-- graphUtils.ts `inferObjectTypeFromFieldName`, step 1:
`replace(/^(get|find|list|all)/i, '')`. -/
def stripLeadingVerb (s : String) : String :=
  let ls := lowerChars s
  if listIsInit "get".toList ls then String.mk (s.toList.drop 3)
  else if listIsInit "find".toList ls then String.mk (s.toList.drop 4)
  else if listIsInit "list".toList ls then String.mk (s.toList.drop 4)
  else if listIsInit "all".toList ls then String.mk (s.toList.drop 3)
  else s

/-- graphUtils.ts `inferObjectTypeFromFieldName`, step 2:
`replace(/(ById|Connection|Edge|s)$/i, '')`.  The regex (without the global
flag) removes the leftmost match anchored at the end, i.e. the longest of the
alternative suffixes that matches case-insensitively. -/
def stripTrailingMarker (s : String) : String :=
  let ls := lowerChars s
  if listIsInit "connection".toList.reverse ls.reverse then
    String.mk (s.toList.take (s.toList.length - 10))
  else if listIsInit "byid".toList.reverse ls.reverse then
    String.mk (s.toList.take (s.toList.length - 4))
  else if listIsInit "edge".toList.reverse ls.reverse then
    String.mk (s.toList.take (s.toList.length - 4))
  else if listIsInit "s".toList.reverse ls.reverse then
    String.mk (s.toList.take (s.toList.length - 1))
  else s

/-- `charAt(0).toUpperCase() + slice(1)`. -/
def upperFirst (s : String) : String :=
  match s.toList with
  | [] => ""
  | c :: rest => String.mk (c.toUpper :: rest)

/-- graphUtils.ts `inferObjectTypeFromFieldName`. -/
def inferObjectTypeFromFieldName (fieldName : String) : String :=
  let typeName := stripTrailingMarker (stripLeadingVerb fieldName)
  if typeName = "" then "Object" else upperFirst typeName

/-- shared-types `UserContext`: `ownedObjectIds` maps a GraphQL object type
name to the object ids the principal owns. -/
structure UserContext where
  id : String
  authToken : String
  ownedObjectIds : List (String × List String)
deriving DecidableEq, Repr

/-- `victimContext.ownedObjectIds[objectType] || []`. -/
def ownedIdsFor (ctx : UserContext) (objectType : String) : List String :=
  match ctx.ownedObjectIds.find? (fun kv => kv.1 = objectType) with
  | some kv => kv.2
  | none => []

/-- shared-types `ScanTarget.bolaConfig`. -/
structure BolaConfig where
  targetObjectTypes : Option (List String)
deriving DecidableEq, Repr

/-- shared-types `ScanTarget` (the optional inline `schema` string is unused
by the engine and omitted). -/
structure ScanTarget where
  id : String
  url : String
  userContexts : List UserContext
  bolaConfig : Option BolaConfig
deriving DecidableEq, Repr

/-- shared-types `ScanResult.status`. -/
inductive ScanStatus where
  | Queued
  | Running
  | Completed
  | Failed
deriving DecidableEq, Repr

/-- shared-types `ScanResult` (`scanId` and the timestamps are not modelled). -/
structure ScanResult where
  target : ScanTarget
  status : ScanStatus
  findings : List Finding
  error : Option String
deriving DecidableEq, Repr

/-- Outcomes of the HTTP probes of one scan.  Each axios `post` is modelled
by its outcome: a thrown `JsError` or a parsed 2xx body. -/
structure DosEnv where
  depthOutcome : Except JsError Body
  listOutcome : String → Except JsError Body

/-- dosScanner.ts `runDosChecks`, depth check: on 2xx (whatever the body) a
Medium finding is pushed; on a thrown error `handlePotentialDosError` runs. -/
def dosDepthStep (outcome : Except JsError Body) (findings : List Finding) :
    List Finding :=
  match outcome with
  | .ok _ =>
    findings ++ [createFinding .Medium "Potencial DoS por Profundidad"
      "Query con profundidad 7 ejecutada con éxito."]
  | .error e => handlePotentialDosError e "profundidad" findings

/-- The pagination/limit test on the GraphQL errors of a list-probe body. -/
def paginationErrors (errors : Option (List GQLError)) : Bool :=
  match errors with
  | some errs =>
    errs.any (fun e => containsCI e.message "pagination" || containsCI e.message "limit")
  | none => false

/-- dosScanner.ts `runDosChecks`, one iteration of the pagination loop for a
given list field name. -/
def dosListStep (fieldName : String) (outcome : Except JsError Body)
    (findings : List Finding) : List Finding :=
  match outcome with
  | .ok body =>
    let results := body.data.bind (fun d => d.lookup fieldName)
    if paginationErrors body.errors then findings
    else
      match results with
      | some (.arr elems) =>
        if elems.length > 100 then
          findings ++ [createFinding .High "Potencial DoS por Falta de Paginación"
            ("Query \x27" ++ fieldName ++ "\x27 devolvió " ++ toString elems.length ++
              " resultados sin paginación.")]
        else findings
      | _ => findings
  | .error e => handlePotentialDosError e ("lista " ++ fieldName) findings

/-- dosScanner.ts `runDosChecks`. -/
def runDosChecks (schema : Option GSchema) (env : DosEnv)
    (findings : List Finding) : List Finding :=
  let afterDepth := dosDepthStep env.depthOutcome findings
  (findListFields schema).foldl
    (fun acc fieldName => dosListStep fieldName (env.listOutcome fieldName) acc)
    afterDepth

/-- bolaTester.ts `analyzeBolaResponse`, first branch: GraphQL error messages
marking denied access (`not found` only counts when `responseData` is falsy). -/
def bolaDeniedErrors (responseErrors : Option (List GQLError))
    (responseData : Option Json) : Bool :=
  match responseErrors with
  | some errs =>
    errs.any (fun e =>
      containsCI e.message "unauthorized" || containsCI e.message "forbidden" ||
        containsCI e.message "access denied" ||
        (containsCI e.message "not found" && !optTruthy responseData))
  | none => false

/-- bolaTester.ts `analyzeBolaResponse`. -/
def analyzeBolaResponse (attacker victim : UserContext)
    (point : BolaPointOfInterest) (victimObjectId : String)
    (responseData : Option Json) (responseErrors : Option (List GQLError))
    (findings : List Finding) : List Finding :=
  let testDesc := point.operation.toStr ++ " " ++ point.fieldName ++ "(" ++
    point.idArgName ++ ": \"" ++ victimObjectId ++ "\")"
  if bolaDeniedErrors responseErrors responseData then findings
  else if isObjectLike responseData then
    let keys := ((responseData.map Json.jsKeys).getD []).filter (fun k => k != "__typename")
    if keys.length > 0 || isArrayLike responseData then
      let severity : Severity :=
        if point.operation = .mutation then .Critical else .High
      findings ++ [createFinding severity "BOLA Detectado"
        ("Usuario \x27" ++ attacker.id ++ "\x27 pudo ejecutar " ++ testDesc ++
          " sobre objeto de \x27" ++ victim.id ++
          "\x27 y obtuvo/modificó datos. Verificar autorización en el resolver.")]
    else findings
  else findings

/-- The outcome of each BOLA probe, keyed by the probe's test key
`<attackerId>-<operation>-<fieldName>-<objectId>`. -/
structure BolaEnv where
  outcome : String → Except JsError Body

/-- bolaTester.ts `runBolaChecks`, the catch guard: HTTP 401/403 on an
AxiosError means access was denied at the transport level. -/
def bolaHttpDenied (e : JsError) : Bool :=
  match e with
  | .axios ae =>
    match ae.response with
    | some r => r.status = 401 || r.status = 403
    | none => false
  | _ => false

/-- The probe dedup key `<attackerId>-<operation>-<fieldName>-<objectId>`. -/
def bolaTestKey (attacker : UserContext) (point : BolaPointOfInterest)
    (victimObjectId : String) : String :=
  attacker.id ++ "-" ++ point.operation.toStr ++ "-" ++
    point.fieldName ++ "-" ++ victimObjectId

/-- bolaTester.ts `runBolaChecks`, body of the innermost loop: dedup on the
test key, then grade the probe outcome.  State is (tested keys, findings). -/
def bolaProbeStep (env : BolaEnv) (attacker victim : UserContext)
    (point : BolaPointOfInterest) (victimObjectId : String)
    (st : List String × List Finding) : List String × List Finding :=
  let testKey := bolaTestKey attacker point victimObjectId
  if st.1.contains testKey then st
  else
    let tested := st.1 ++ [testKey]
    match env.outcome testKey with
    | .ok body =>
      let responseData := body.data.bind (fun d => d.lookup point.fieldName)
      (tested,
        analyzeBolaResponse attacker victim point victimObjectId responseData
          body.errors st.2)
    | .error e =>
      if bolaHttpDenied e then (tested, st.2)
      else
        (tested, st.2 ++ [createFinding .Low
          ("Error Inesperado en Prueba BOLA (" ++ point.fieldName ++ ")")
          ("La petición BOLA para el objeto " ++ victimObjectId ++ " de " ++
            victim.id ++ " (atacante " ++ attacker.id ++ ") falló con: " ++
            getErrorMessage e)])

/-- bolaTester.ts `runBolaChecks`, loop over a point's victim object ids. -/
def bolaPointLoop (env : BolaEnv) (attacker victim : UserContext)
    (point : BolaPointOfInterest) (st : List String × List Finding) :
    List String × List Finding :=
  let objectType :=
    if point.returnTypeName != "" then point.returnTypeName
    else inferObjectTypeFromFieldName point.fieldName
  let victimObjectIds := ownedIdsFor victim objectType
  victimObjectIds.foldl
    (fun st objectId => bolaProbeStep env attacker victim point objectId st) st

/-- bolaTester.ts `runBolaChecks`, loop over victims and points for a fixed
attacker. -/
def bolaAttackerLoop (env : BolaEnv) (target : ScanTarget)
    (bolaPoints : List BolaPointOfInterest) (attacker : UserContext)
    (st : List String × List Finding) : List String × List Finding :=
  target.userContexts.foldl
    (fun st victim =>
      if attacker.id = victim.id then st
      else
        bolaPoints.foldl
          (fun st point => bolaPointLoop env attacker victim point st) st)
    st

/-- bolaTester.ts `runBolaChecks`. -/
def runBolaChecks (target : ScanTarget) (schema : Option GSchema)
    (env : BolaEnv) (findings : List Finding) : List Finding :=
  if !(target.userContexts.length ≥ 2) then findings
  else
    match schema with
    | none => findings
    | some s =>
      let bolaPoints :=
        findBolaPointsOfInterest s (target.bolaConfig.bind (fun c => c.targetObjectTypes))
      if bolaPoints.length = 0 then
        if (target.bolaConfig.bind (fun c => c.targetObjectTypes)).isNone ||
            (target.bolaConfig.bind (fun c => c.targetObjectTypes)).getD [] = [] then
          findings ++ [createFinding .Info "No se encontraron puntos de prueba BOLA"
            "El análisis del schema no identificó queries/mutations obvias con argumentos ID para probar BOLA."]
        else
          findings ++ [createFinding .Info
            "No se encontraron puntos de prueba BOLA para los tipos especificados"
            ("No se encontraron queries/mutations con argumentos ID que devuelvan los tipos [" ++
              String.intercalate ", "
                ((target.bolaConfig.bind (fun c => c.targetObjectTypes)).getD []) ++
              "] para probar BOLA.")]
      else
        (target.userContexts.foldl
          (fun st attacker => bolaAttackerLoop env target bolaPoints attacker st)
          ([], findings)).2

/-- schemaFetcher.ts: the introspection request outcome, and the behavior of
the external `buildClientSchema` on the returned introspection data (`.error`
models a throw while parsing, caught by the fetcher's catch-all). -/
structure SchemaEnv where
  outcome : Except JsError Body
  build : Json → Except JsError GSchema

/-- schemaFetcher.ts `getSchema`: returns the updated findings and the parsed
schema (or none). -/
def getSchema (env : SchemaEnv) (findings : List Finding) :
    List Finding × Option GSchema :=
  match env.outcome with
  | .ok body =>
    let findings1 :=
      if body.errors.isSome then
        findings ++ [createFinding .Info "Introspection Query con Errores"
          "La introspection query devolvió errores."]
      else findings
    if optTruthy body.data then
      match env.build (body.data.getD Json.null) with
      | .ok schema =>
        (findings1 ++ [createFinding .Info "Introspection Habilitada"
          "La API permite introspection queries. Considera deshabilitarla en producción."],
         some schema)
      | .error e =>
        (findings1 ++ [createFinding .Low "Introspection Deshabilitada o Fallida"
          ("No se pudo obtener el schema vía Introspection (" ++
            getErrorMessage e ++"). El análisis será menos preciso.")], none)
    else
      (findings1 ++ [createFinding .Low "Introspection Deshabilitada o Fallida"
        "No se pudo obtener el schema vía Introspection."], none)
  | .error e =>
    (findings ++ [createFinding .Low "Introspection Deshabilitada o Fallida"
      ("No se pudo obtener el schema vía Introspection (" ++
        getErrorMessage e ++ "). El análisis será menos preciso.")], none)

/-- The HTTP environment of a whole scan run. -/
structure ScanEnv where
  connectivity : Except JsError Unit
  schemaEnv : SchemaEnv
  dosEnv : DosEnv
  bolaEnv : BolaEnv

/-- index.ts `runScan`, try-block: the connectivity failure is rethrown as an
`Error` with the `No se pudo conectar a ...` message; the schema fetcher and
the probers catch their own transport errors internally (as in the source),
so no other exception reaches the orchestrator's catch. -/
def runScanBody (target : ScanTarget) (env : ScanEnv) :
    Except JsError (List Finding) :=
  match env.connectivity with
  | .error e =>
    .error (.jsErr ("No se pudo conectar a " ++ target.url ++
      ". Verifica la URL, la red y el token inicial si aplica. Error: " ++
      getErrorMessage e))
  | .ok _ =>
    let sres := getSchema env.schemaEnv []
    let findings2 := runDosChecks sres.2 env.dosEnv sres.1
    let findings3 := runBolaChecks target sres.2 env.bolaEnv findings2
    .ok findings3

/-- `s.startsWith(pat)`. -/
def strStartsWith (s pat : String) : Bool :=
  listIsInit pat.toList s.toList

/-- index.ts `runScan`. -/
def runScan (target : ScanTarget) (env : ScanEnv) : ScanResult :=
  match runScanBody target env with
  | .ok findings =>
    { target := target, status := .Completed, findings := findings, error := none }
  | .error e =>
    let scanError := getErrorMessage e
    let findings :=
      if !strStartsWith scanError "No se pudo conectar" then
        [createFinding .Critical "Error Fatal Durante el Escaneo" scanError]
      else []
    { target := target, status := .Failed, findings := findings,
      error := some scanError }

/-- Selection-set nesting: running depth after a character list (saturating at
0, which the generated balanced documents never reach). -/
def nestD : List Char → Nat → Nat
  | [], d => d
  | c :: cs, d =>
    if c = '\x7b' then nestD cs (d + 1)
    else if c = '\x7d' then nestD cs (d - 1)
    else nestD cs d

/-- Selection-set nesting: maximum depth reached while scanning. -/
def nestM : List Char → Nat → Nat → Nat
  | [], _, m => m
  | c :: cs, d, m =>
    if c = '\x7b' then nestM cs (d + 1) (Nat.max m (d + 1))
    else if c = '\x7d' then nestM cs (d - 1) m
    else nestM cs d m

/-- Maximum brace-nesting depth of a GraphQL document string. -/
def maxNesting (s : String) : Nat := nestM s.toList 0 0

/-- Field levels below the query root: nesting depth not counting the root
selection set itself. -/
def nestingBelowRoot (s : String) : Nat := maxNesting s - 1

/-- A name free of brace characters (true of every legal GraphQL name). -/
def noBrace (s : String) : Bool :=
  s.toList.all (fun c => c != '\x7b' && c != '\x7d')

/-- The field-name list that `generateDeepQuery` renders. -/
def deepQueryNames (depth : Nat) (schema : Option GSchema) : List String :=
  let path := deepQueryPath depth schema
  if path.length > 0 then path else syntheticNames depth

/-- The open-brace segments accumulated by the first fold of `renderDeepQuery`. -/
def openSegs : List String → String
  | [] => ""
  | f :: fs => " " ++ f ++ " \x7b" ++ openSegs fs

/-- The close-brace segments accumulated by the second fold. -/
def closeSegs : List String → String
  | [] => ""
  | _ :: fs => " \x7d" ++ closeSegs fs


/-- Modelled from the spec (§4.2, quoted by the claims): the message half of
the AuthDenied classification — some GraphQL error message contains
(case-insensitively) `unauthorized`, `forbidden`, `access denied`, or
`not found` when `dataVal` is falsy. -/
def specAuthDeniedMsgs (errors : Option (List GQLError)) (dataVal : Option Json) : Bool :=
  match errors with
  | some errs =>
    errs.any (fun e =>
      containsCI e.message "unauthorized" || containsCI e.message "forbidden" ||
        containsCI e.message "access denied" ||
        (containsCI e.message "not found" && !optTruthy dataVal))
  | none => false

/-- Modelled from the spec (§4.2): a probe outcome is classified AuthDenied
when its GraphQL errors satisfy the message test, or the HTTP status is
401 or 403. -/
def specAuthDenied (outcome : Except JsError Body) : Bool :=
  match outcome with
  | .ok body => specAuthDeniedMsgs body.errors body.data
  | .error (.axios ae) =>
    (match ae.response with
     | some r =>
       r.status = 401 || r.status = 403 ||
         specAuthDeniedMsgs (axiosGqlErrors ae) (r.data.bind (fun b => b.data))
     | none => false)
  | .error _ => false

/-- Modelled from the spec (§4.4): a root query field qualifies as a list
field iff its type after unwrapping NonNull is a List and every required
(NonNull) argument has a pagination name (case-insensitive). -/
def specListFieldQualifies (field : FieldDef) : Bool :=
  isListTypeB (match field.type with | .nonNull inner => inner | t => t) &&
    field.args.all (fun arg =>
      !isNonNullTypeB arg.type || paginationArgNames.contains (strLower arg.name))

/-- Modelled from the spec (§4.4): the qualifying root query field names. -/
def specListFields (s : GSchema) : List String :=
  match s.getQueryType with
  | some qt => (qt.fields.filter specListFieldQualifies).map (fun f => f.name)
  | none => []

/-- Length of a JSON array value (0 otherwise); the observed length reported
by the pagination finding. -/
def jsArrayLen : Option Json → Nat
  | some (.arr elems) => elems.length
  | _ => 0

/-- A small schema whose greedy deep path stops after one step: the query
root has a single object field `me: User` and `User` has only scalar fields. -/
def shortPathSchema : GSchema :=
  { objects :=
      [ { name := "Query",
          fields := [{ name := "me", args := [], type := .named "User" }] },
        { name := "User",
          fields := [{ name := "name", args := [], type := .named "String" }] } ],
    scalars := ["String", "ID"],
    queryTypeName := some "Query",
    mutationTypeName := none }

/-- A schema whose only root list field `users` has a required non-pagination
argument `companyId: ID!`: no field qualifies, so the fallback names are
returned. -/
def gatedListSchema : GSchema :=
  { objects :=
      [ { name := "Query",
          fields := [{ name := "users",
                       args := [{ name := "companyId", type := .nonNull (.named "ID") }],
                       type := .list (.named "User") }] },
        { name := "User",
          fields := [{ name := "id", args := [], type := .named "ID" }] } ],
    scalars := ["String", "ID"],
    queryTypeName := some "Query",
    mutationTypeName := none }

/-- A schema with one qualifying root list field `users: [User]` without
required arguments. -/
def openListSchema : GSchema :=
  { objects :=
      [ { name := "Query",
          fields := [{ name := "users", args := [], type := .list (.named "User") }] },
        { name := "User",
          fields := [{ name := "id", args := [], type := .named "ID" }] } ],
    scalars := ["String", "ID"],
    queryTypeName := some "Query",
    mutationTypeName := none }

/-- An axios error for an HTTP 401 response whose body carries a GraphQL
`Unauthorized` error: classified AuthDenied by the spec's classifier. -/
def unauthorizedDosError : JsError :=
  .axios { response := some { status := 401, statusText := some "Unauthorized",
                              data := some { data := none,
                                             errors := some [{ message := "Unauthorized" }],
                                             message := none } },
           code := none,
           message := "Request failed with status code 401" }

/-- The error thrown by axios when a request times out: no HTTP response,
`code = 'ECONNABORTED'`, message `timeout of 15000ms exceeded`. -/
def timeoutAxiosError : JsError :=
  .axios { response := none, code := some "ECONNABORTED",
           message := "timeout of 15000ms exceeded" }

/-- A 2xx list-probe body carrying 101 items and a GraphQL error that
mentions a limit. -/
def limitedBigListBody : Body :=
  { data := some (.obj [("users", .arr (List.replicate 101 (.obj [("id", .str "1")])))]),
    errors := some [{ message := "field limit reached" }],
    message := none }

/-- A 2xx list-probe body carrying 101 items and no GraphQL errors. -/
def bigListBody : Body :=
  { data := some (.obj [("users", .arr (List.replicate 101 (.obj [("id", .str "1")])))]),
    errors := none,
    message := none }

/-- An example BOLA point of interest (query `order(id: ...)`). -/
def pointOrder : BolaPointOfInterest :=
  { fieldName := "order", idArgName := "id", operation := .query,
    returnTypeName := "Order" }

/-- Example principals. -/
def userA : UserContext :=
  { id := "userA", authToken := "tokenA", ownedObjectIds := [] }

/-- Example victim principal owning one `Order` object. -/
def userB : UserContext :=
  { id := "userB", authToken := "tokenB", ownedObjectIds := [("Order", ["o1"])] }

/-- An example scan target with two principals. -/
def exampleTarget : ScanTarget :=
  { id := "t1", url := "http://x/gql", userContexts := [userA, userB],
    bolaConfig := none }

/-- An empty 2xx response body. -/
def emptyBody : Body := { data := none, errors := none, message := none }

/-- An axios error for a bare HTTP 403 response. -/
def http403Error : AxiosErrorV :=
  { response := some { status := 403, statusText := none, data := none },
    code := none, message := "Request failed with status code 403" }

/-- A BOLA probe environment in which every request fails with HTTP 403. -/
def deny403Env : BolaEnv :=
  { outcome := fun _ => .error (.axios http403Error) }

/-- An environment in which the connectivity probe fails at the transport
level and every other request errors. -/
def downEnv : ScanEnv :=
  { connectivity := .error (.axios { response := none, code := some "ECONNREFUSED",
                                     message := "connect ECONNREFUSED 127.0.0.1:80" }),
    schemaEnv := { outcome := .error .other, build := fun _ => .error .other },
    dosEnv := { depthOutcome := .error .other, listOutcome := fun _ => .error .other },
    bolaEnv := { outcome := fun _ => .error .other } }

/-- An environment in which connectivity succeeds, introspection returns no
data, and every probe receives an empty 2xx body. -/
def quietEnv : ScanEnv :=
  { connectivity := .ok (),
    schemaEnv := { outcome := .ok emptyBody, build := fun _ => .error .other },
    dosEnv := { depthOutcome := .ok emptyBody, listOutcome := fun _ => .ok emptyBody },
    bolaEnv := { outcome := fun _ => .ok emptyBody } }

/-- A state transformer on (tested keys, findings) that treats the findings
list as append-only: the new keys do not depend on prior findings, and prior
findings are preserved as a prefix. -/
def PairAppend (g : List String × List Finding → List String × List Finding) : Prop :=
  ∀ ts fs, g (ts, fs) = ((g (ts, [])).1, fs ++ (g (ts, [])).2)

theorem nestD_append (l1 l2 : List Char) (d : Nat) :
    nestD (l1 ++ l2) d = nestD l2 (nestD l1 d) := by
  induction l1 generalizing d with
  | nil => rfl
  | cons c cs ih =>
    simp only [List.cons_append, nestD]
    split
    · exact ih _
    · split <;> exact ih _

theorem nestM_append (l1 l2 : List Char) (d m : Nat) :
    nestM (l1 ++ l2) d m = nestM l2 (nestD l1 d) (nestM l1 d m) := by
  induction l1 generalizing d m with
  | nil => rfl
  | cons c cs ih =>
    simp only [List.cons_append, nestD, nestM]
    split
    · exact ih _ _
    · split <;> exact ih _ _

theorem nestD_skip (l : List Char) (d : Nat)
    (h : l.all (fun c => c != '\x7b' && c != '\x7d')) : nestD l d = d := by
  induction l generalizing d with
  | nil => rfl
  | cons c cs ih =>
    simp only [List.all_cons, Bool.and_eq_true, bne_iff_ne] at h
    simp only [nestD, if_neg h.1.1, if_neg h.1.2]
    exact ih _ h.2

theorem nestM_skip (l : List Char) (d m : Nat)
    (h : l.all (fun c => c != '\x7b' && c != '\x7d')) : nestM l d m = m := by
  induction l generalizing d m with
  | nil => rfl
  | cons c cs ih =>
    simp only [List.all_cons, Bool.and_eq_true, bne_iff_ne] at h
    simp only [nestM, if_neg h.1.1, if_neg h.1.2]
    exact ih _ _ h.2

theorem foldl_open_eq (names : List String) (q : String) :
    names.foldl (fun q fieldName => q ++ " " ++ fieldName ++ " \x7b") q =
      q ++ openSegs names := by
  induction names generalizing q with
  | nil => simp [openSegs]
  | cons f fs ih =>
    simp only [List.foldl_cons, openSegs, ih]
    simp [String.append_assoc]

theorem foldl_close_eq (names : List String) (q : String) :
    names.foldl (fun q _ => q ++ " \x7d") q = q ++ closeSegs names := by
  induction names generalizing q with
  | nil => simp [closeSegs]
  | cons f fs ih =>
    simp only [List.foldl_cons, closeSegs, ih]
    simp [String.append_assoc]

theorem toList_append (a b : String) : (a ++ b).toList = a.toList ++ b.toList := by
  simp [String.toList, String.data_append]

theorem nestM_openSegs (names : List String) (h : names.all noBrace = true) :
    ∀ d : Nat, nestM (openSegs names).toList d d = d + names.length := by
  induction names with
  | nil => intro d; simp [openSegs, nestM, String.toList]
  | cons f fs ih =>
    intro d
    simp only [List.all_cons, Bool.and_eq_true] at h
    have hf : f.toList.all (fun c => c != '\x7b' && c != '\x7d') = true := h.1
    have hseg : (openSegs (f :: fs)).toList =
        ([' '] ++ f.toList) ++ ([' ', '\x7b'] ++ (openSegs fs).toList) := by
      simp [openSegs, toList_append, String.toList]
    rw [hseg, nestM_append, nestM_append, nestD_append]
    rw [nestD_skip [' '] d (by decide), nestD_skip f.toList d hf]
    rw [nestM_skip ([' '] ++ f.toList) d d (by
      simp only [List.all_append, Bool.and_eq_true]
      exact And.intro (by decide) hf)]
    have h1 : nestD [' ', '\x7b'] d = d + 1 := by simp [nestD]
    have h2 : nestM [' ', '\x7b'] d d = d + 1 := by
      simp [nestM, Nat.max_eq_right (Nat.le_succ d)]
    rw [h1, h2, ih h.2 (d + 1)]
    simp [List.length_cons]
    omega

theorem nestM_closeSegs (names : List String) :
    ∀ d m : Nat, nestM (closeSegs names).toList d m = m := by
  induction names with
  | nil => intro d m; simp [closeSegs, nestM, String.toList]
  | cons f fs ih =>
    intro d m
    have hseg : (closeSegs (f :: fs)).toList =
        [' ', '\x7d'] ++ (closeSegs fs).toList := by
      simp [closeSegs, toList_append, String.toList]
    rw [hseg, nestM_append, ih]
    simp [nestM]

theorem maxNesting_render (names : List String) (h : names.all noBrace = true) :
    maxNesting (renderDeepQuery names) = names.length + 1 := by
  have e : (renderDeepQuery names).toList =
      ['\x7b'] ++ ((openSegs names).toList ++ (" id __typename ".toList ++
        ((closeSegs names).toList ++ [' ', '\x7d']))) := by
    simp [renderDeepQuery, foldl_open_eq, foldl_close_eq, toList_append, String.toList]
  unfold maxNesting
  rw [e, nestM_append, nestM_append, nestM_append, nestM_append]
  have hcl : ∀ d m : Nat, nestM [' ', '\x7d'] d m = m := by
    intro d m; simp [nestM]
  rw [hcl, nestM_closeSegs]
  rw [nestM_skip (" id __typename ".toList) _ _ (by decide)]
  have hD : nestD ['\x7b'] 0 = 1 := by simp [nestD]
  have hM : nestM ['\x7b'] 0 0 = 1 := by simp [nestM]
  rw [hD, hM, nestM_openSegs names h 1]
  omega
theorem listIsInit_append (p a b : List Char) (h : listIsInit p a = true) :
    listIsInit p (a ++ b) = true := by
  induction p generalizing a with
  | nil => rfl
  | cons c cs ih =>
    cases a with
    | nil => simp [listIsInit] at h
    | cons x xs =>
      simp only [List.cons_append, listIsInit, Bool.and_eq_true] at h ⊢
      exact ⟨h.1, ih xs h.2⟩

theorem strStartsWith_of_append (pat a b : String)
    (h : listIsInit pat.toList a.toList = true) :
    strStartsWith (a ++ b) pat = true := by
  unfold strStartsWith
  rw [toList_append]
  exact listIsInit_append _ _ _ h

theorem deepPath_length_le (s : GSchema) (current : ObjectTypeDef) (n : Nat) :
    (deepPath s current n).length ≤ n := by
  induction n generalizing current with
  | zero => simp [deepPath]
  | succ n ih =>
    simp only [deepPath]
    cases hf : current.fields.find? (deepFieldOk s current.name) with
    | none => simp
    | some f =>
      cases hg : s.getObject (getNamedTypeName f.type) with
      | none => simp [hg]
      | some next =>
        simp only [hg, List.length_cons]
        exact Nat.succ_le_succ (ih next)

theorem handlePotentialDosError_append (e : JsError) (ct : String)
    (f : List Finding) :
    handlePotentialDosError e ct f = f ++ handlePotentialDosError e ct [] := by
  unfold handlePotentialDosError
  dsimp only
  split
  · simp
  · split <;> simp

theorem dosDepthStep_append (o : Except JsError Body) (f : List Finding) :
    dosDepthStep o f = f ++ dosDepthStep o [] := by
  unfold dosDepthStep
  cases o with
  | ok body => simp
  | error e => exact handlePotentialDosError_append e _ f

theorem dosListStep_append (fieldName : String) (o : Except JsError Body)
    (f : List Finding) :
    dosListStep fieldName o f = f ++ dosListStep fieldName o [] := by
  unfold dosListStep
  cases o with
  | ok body =>
    dsimp only
    split
    · simp
    · split
      · split <;> simp
      · simp
  | error e => exact handlePotentialDosError_append e _ f

theorem analyzeBolaResponse_append (attacker victim : UserContext)
    (point : BolaPointOfInterest) (objectId : String) (rd : Option Json)
    (re : Option (List GQLError)) (f : List Finding) :
    analyzeBolaResponse attacker victim point objectId rd re f =
      f ++ analyzeBolaResponse attacker victim point objectId rd re [] := by
  unfold analyzeBolaResponse
  dsimp only
  split
  · simp
  · split
    · split <;> simp
    · simp

theorem getSchema_append (env : SchemaEnv) (f : List Finding) :
    (getSchema env f).1 = f ++ (getSchema env []).1 ∧
      (getSchema env f).2 = (getSchema env []).2 := by
  unfold getSchema
  cases env.outcome with
  | error e => simp
  | ok body =>
    dsimp only
    split <;> split <;> (try split) <;> simp

theorem foldl_step_append {α : Type} (step : α → List Finding → List Finding)
    (hstep : ∀ a f, step a f = f ++ step a []) (l : List α) (f : List Finding) :
    l.foldl (fun acc a => step a acc) f = f ++ l.foldl (fun acc a => step a acc) [] := by
  induction l generalizing f with
  | nil => simp
  | cons a l ih =>
    simp only [List.foldl_cons]
    rw [ih (step a f), hstep a f, ih (step a []), List.append_assoc]

theorem runDosChecks_append (schema : Option GSchema) (env : DosEnv)
    (f : List Finding) :
    runDosChecks schema env f = f ++ runDosChecks schema env [] := by
  unfold runDosChecks
  rw [dosDepthStep_append]
  rw [foldl_step_append (fun a acc => dosListStep a (env.listOutcome a) acc)
      (fun a g => dosListStep_append a (env.listOutcome a) g)]
  rw [foldl_step_append (fun a acc => dosListStep a (env.listOutcome a) acc)
      (fun a g => dosListStep_append a (env.listOutcome a) g)
      (findListFields schema) (dosDepthStep env.depthOutcome [])]
  rw [List.append_assoc]

theorem pairAppend_comp (g h : List String × List Finding → List String × List Finding)
    (hg : PairAppend g) (hh : PairAppend h) : PairAppend (fun st => h (g st)) := by
  intro ts fs
  dsimp only
  rw [hg ts fs, hh (g (ts, [])).1 (fs ++ (g (ts, [])).2)]
  have e0 : h (g (ts, [])) =
      ((h ((g (ts, [])).1, [])).1, (g (ts, [])).2 ++ (h ((g (ts, [])).1, [])).2) := by
    have := hh (g (ts, [])).1 (g (ts, [])).2
    simpa using this
  rw [e0]
  simp [List.append_assoc]

theorem pairAppend_foldl {α : Type}
    (step : α → (List String × List Finding) → (List String × List Finding))
    (hstep : ∀ a, PairAppend (step a)) (l : List α) :
    PairAppend (fun st => l.foldl (fun st a => step a st) st) := by
  induction l with
  | nil => intro ts fs; simp
  | cons a l ih =>
    intro ts fs
    have h2 := pairAppend_comp (step a)
      (fun st => l.foldl (fun st a => step a st) st) (hstep a) ih ts fs
    dsimp only at h2
    dsimp only
    rw [List.foldl_cons, List.foldl_cons]
    exact h2

theorem bolaProbeStep_pairAppend (env : BolaEnv) (attacker victim : UserContext)
    (point : BolaPointOfInterest) (objectId : String) :
    PairAppend (bolaProbeStep env attacker victim point objectId) := by
  intro ts fs
  unfold bolaProbeStep
  dsimp only
  split
  · simp
  · split
    · conv_lhs => rw [analyzeBolaResponse_append]
    · split <;> simp

theorem bolaPointLoop_pairAppend (env : BolaEnv) (attacker victim : UserContext)
    (point : BolaPointOfInterest) :
    PairAppend (bolaPointLoop env attacker victim point) := by
  intro ts fs
  unfold bolaPointLoop
  dsimp only
  exact pairAppend_foldl _
    (fun a => bolaProbeStep_pairAppend env attacker victim point a) _ ts fs

theorem bolaAttackerLoop_pairAppend (env : BolaEnv) (target : ScanTarget)
    (bolaPoints : List BolaPointOfInterest) (attacker : UserContext) :
    PairAppend (bolaAttackerLoop env target bolaPoints attacker) := by
  have hstep : ∀ victim : UserContext, PairAppend (fun st =>
      if attacker.id = victim.id then st
      else bolaPoints.foldl (fun st point => bolaPointLoop env attacker victim point st) st) := by
    intro victim ts fs
    dsimp only
    by_cases hv : attacker.id = victim.id
    · simp [hv]
    · simp only [if_neg hv]
      have h := pairAppend_foldl _
        (fun point => bolaPointLoop_pairAppend env attacker victim point) bolaPoints ts fs
      dsimp only at h
      exact h
  intro ts fs
  have h := pairAppend_foldl _ hstep target.userContexts ts fs
  dsimp only at h
  unfold bolaAttackerLoop
  exact h

theorem runBolaChecks_append (target : ScanTarget) (schema : Option GSchema)
    (env : BolaEnv) (f : List Finding) :
    runBolaChecks target schema env f = f ++ runBolaChecks target schema env [] := by
  unfold runBolaChecks
  split
  · simp
  · cases schema with
    | none => simp
    | some s =>
      dsimp only
      split
      · split <;> simp
      · have h := pairAppend_foldl _
          (fun attacker => bolaAttackerLoop_pairAppend env target
            (findBolaPointsOfInterest s (target.bolaConfig.bind (fun c => c.targetObjectTypes)))
            attacker)
          target.userContexts [] f
        dsimp only at h
        rw [h]

theorem getErrorMessage_jsErr (m : String) : getErrorMessage (.jsErr m) = m := rfl

theorem strStartsWith_append_right (pat a b : String)
    (h : strStartsWith a pat = true) : strStartsWith (a ++ b) pat = true :=
  strStartsWith_of_append pat a b h

theorem runScan_conn_fail (target : ScanTarget) (env : ScanEnv) (e : JsError)
    (hc : env.connectivity = .error e) :
    runScan target env =
      { target := target, status := .Failed, findings := [],
        error := some ("No se pudo conectar a " ++ target.url ++
          ". Verifica la URL, la red y el token inicial si aplica. Error: " ++
          getErrorMessage e) } := by
  unfold runScan runScanBody
  rw [hc]
  simp only [getErrorMessage_jsErr]
  have hsw : strStartsWith ("No se pudo conectar a " ++ target.url ++
      ". Verifica la URL, la red y el token inicial si aplica. Error: " ++
      getErrorMessage e) "No se pudo conectar" = true :=
    strStartsWith_append_right _ _ _ (strStartsWith_append_right _ _ _
      (strStartsWith_append_right _ _ _ (by decide)))
  simp [hsw]

theorem runScan_conn_ok (target : ScanTarget) (env : ScanEnv) (u : Unit)
    (hc : env.connectivity = .ok u) :
    runScan target env =
      { target := target, status := .Completed,
        findings := runBolaChecks target (getSchema env.schemaEnv []).2 env.bolaEnv
          (runDosChecks (getSchema env.schemaEnv []).2 env.dosEnv
            (getSchema env.schemaEnv []).1),
        error := none } := by
  unfold runScan runScanBody
  rw [hc]

/-- C5: `runScan` is a total function of the target and the probe outcomes
(no exception escapes: connectivity failure is caught and every prober
handles its own errors), and the returned status is always `Completed` or
`Failed`, never `Queued` or `Running`. -/
theorem runScan_status_total (target : ScanTarget) (env : ScanEnv) :
    (runScan target env).status = .Completed ∨ (runScan target env).status = .Failed := by
  cases hc : env.connectivity with
  | ok u => rw [runScan_conn_ok target env u hc]; left; rfl
  | error e => rw [runScan_conn_fail target env e hc]; right; rfl

/-- C4: whenever `runScan` returns `status = Failed`, the error string is
set; in this embedding the only failure path is the pre-introspection
connectivity check, on which the findings list is empty and the error begins
with `No se pudo conectar a ` (so the fatal-finding arm of the claim is
vacuously satisfied). -/
theorem runScan_failed_invariant (target : ScanTarget) (env : ScanEnv)
    (h : (runScan target env).status = .Failed) :
    (runScan target env).error.isSome = true ∧
      ((∃ fd ∈ (runScan target env).findings,
          fd.severity = .Critical ∧ fd.description = "Error Fatal Durante el Escaneo") ∨
        ((runScan target env).findings = [] ∧
          ∃ msg, (runScan target env).error = some msg ∧
            strStartsWith msg "No se pudo conectar a " = true)) := by
  cases hc : env.connectivity with
  | ok u =>
    rw [runScan_conn_ok target env u hc] at h
    simp at h
  | error e =>
    rw [runScan_conn_fail target env e hc]
    refine ⟨rfl, Or.inr ⟨rfl, ⟨_, rfl, ?_⟩⟩⟩
    exact strStartsWith_append_right _ _ _ (strStartsWith_append_right _ _ _
      (strStartsWith_append_right _ _ _ (by decide)))

/-- C4 witness: a concrete unreachable target. -/
theorem runScan_failed_invariant_witness :
    (runScan exampleTarget downEnv).status = .Failed ∧
      ((runScan exampleTarget downEnv).error.isSome = true ∧
        ((∃ fd ∈ (runScan exampleTarget downEnv).findings,
            fd.severity = .Critical ∧ fd.description = "Error Fatal Durante el Escaneo") ∨
          ((runScan exampleTarget downEnv).findings = [] ∧
            ∃ msg, (runScan exampleTarget downEnv).error = some msg ∧
              strStartsWith msg "No se pudo conectar a " = true))) :=
  ⟨by decide, runScan_failed_invariant exampleTarget downEnv (by decide)⟩

/-- C10: findings are append-only through the whole pipeline: the schema
fetcher, the DoS prober and the BOLA prober each extend the findings list
they receive by a suffix that does not depend on it, so a completed scan's
findings are the three phases' emissions concatenated in emission order. -/
theorem findings_append_only :
    (∀ (env : SchemaEnv) (f : List Finding),
        (getSchema env f).1 = f ++ (getSchema env []).1) ∧
    (∀ (schema : Option GSchema) (env : DosEnv) (f : List Finding),
        runDosChecks schema env f = f ++ runDosChecks schema env []) ∧
    (∀ (target : ScanTarget) (schema : Option GSchema) (env : BolaEnv)
        (f : List Finding),
        runBolaChecks target schema env f = f ++ runBolaChecks target schema env []) ∧
    (∀ (target : ScanTarget) (env : ScanEnv),
        (runScan target env).status = .Completed →
          (runScan target env).findings =
            (getSchema env.schemaEnv []).1 ++
              (runDosChecks (getSchema env.schemaEnv []).2 env.dosEnv [] ++
                runBolaChecks target (getSchema env.schemaEnv []).2 env.bolaEnv [])) := by
  refine ⟨fun env f => (getSchema_append env f).1, runDosChecks_append,
    runBolaChecks_append, fun target env h => ?_⟩
  cases hc : env.connectivity with
  | error e =>
    rw [runScan_conn_fail target env e hc] at h
    simp at h
  | ok u =>
    rw [runScan_conn_ok target env u hc]
    rw [runDosChecks_append, runBolaChecks_append, List.append_assoc]

/-- C10 witness: a concrete quiet scan. -/
theorem findings_append_only_witness :
    (runScan exampleTarget quietEnv).status = .Completed ∧
      (runScan exampleTarget quietEnv).findings =
        (getSchema quietEnv.schemaEnv []).1 ++
          (runDosChecks (getSchema quietEnv.schemaEnv []).2 quietEnv.dosEnv [] ++
            runBolaChecks exampleTarget (getSchema quietEnv.schemaEnv []).2
              quietEnv.bolaEnv []) :=
  ⟨by decide, findings_append_only.2.2.2 exampleTarget quietEnv (by decide)⟩

/-- C1 (amended): probes graded by the BOLA prober emit no finding when the
2xx response's GraphQL errors mark denied access (the spec's AuthDenied
message test), and none when the request fails with HTTP 401/403; the DoS
prober has no AuthDenied suppression (see the counterexample). -/
theorem bola_authDenied_no_finding :
    (∀ (attacker victim : UserContext) (point : BolaPointOfInterest)
        (objectId : String) (rd : Option Json) (re : Option (List GQLError))
        (findings : List Finding),
        specAuthDeniedMsgs re rd = true →
        analyzeBolaResponse attacker victim point objectId rd re findings = findings) ∧
    (∀ (env : BolaEnv) (attacker victim : UserContext)
        (point : BolaPointOfInterest) (objectId : String) (ts : List String)
        (fs : List Finding) (ae : AxiosErrorV) (r : AxResponse),
        env.outcome (bolaTestKey attacker point objectId) = .error (.axios ae) →
        ae.response = some r → (r.status = 401 ∨ r.status = 403) →
        (bolaProbeStep env attacker victim point objectId (ts, fs)).2 = fs) := by
  constructor
  · intro attacker victim point objectId rd re findings h
    unfold analyzeBolaResponse
    dsimp only
    rw [if_pos]
    exact h
  · intro env attacker victim point objectId ts fs ae r h1 h2 h3
    unfold bolaProbeStep
    dsimp only
    split
    · rfl
    · rw [h1]
      have hd : bolaHttpDenied (.axios ae) = true := by
        simp only [bolaHttpDenied, h2]
        rcases h3 with h3 | h3 <;> simp [h3]
      simp [hd]

/-- C1 witness: a `Forbidden` GraphQL error suppresses the BOLA finding, and
an HTTP 403 on the probe request does too. -/
theorem bola_authDenied_no_finding_witness :
    (specAuthDeniedMsgs (some [{ message := "Forbidden" }]) none = true ∧
      analyzeBolaResponse userA userB pointOrder "o1" none
        (some [{ message := "Forbidden" }]) [] = []) ∧
    (bolaProbeStep deny403Env userA userB pointOrder "o1" ([], [])).2 = [] :=
  ⟨⟨by decide, bola_authDenied_no_finding.1 userA userB pointOrder "o1" none
      (some [{ message := "Forbidden" }]) [] (by decide)⟩,
    bola_authDenied_no_finding.2 deny403Env userA userB pointOrder "o1" [] []
      http403Error { status := 403, statusText := none, data := none }
      rfl rfl (Or.inr rfl)⟩

/-- C1 counterexample: a DoS depth probe that fails with HTTP 401 and an
`Unauthorized` GraphQL error is classified AuthDenied by the spec's
classifier, yet the DoS prober emits a Low finding for it. -/
theorem dos_authDenied_emits_finding :
    specAuthDenied (.error unauthorizedDosError) = true ∧
      dosDepthStep (.error unauthorizedDosError) [] =
        [createFinding .Low "Error Inesperado en Chequeo DoS (profundidad)"
          "La petición causó un error (GraphQL Error: Unauthorized)."] := by
  constructor
  · decide
  · decide

/-- C2: the BOLA response analyzer emits a finding for an EMPTY array — the
`Array.isArray` disjunct does not require non-emptiness, contradicting both
the claim and the adjacent source comment (`arrays no vacíos`): evaluating
the code at `data[fieldName] = []` with no GraphQL errors yields a High
finding, where the claim requires none. -/
theorem analyzeBola_empty_array_emits :
    (analyzeBolaResponse userA userB pointOrder "o1" (some (.arr [])) none []).map
        (fun fd => fd.severity) = [.High] ∧
      (Json.arr []).jsKeys = [] := by
  constructor
  · decide
  · decide

/-- C3: the timeout branch of `getErrorMessage` is unreachable for real axios
timeouts: `if (error.code)` returns first, so a timed-out request (code
`ECONNABORTED`, no response) yields `Network Error: ECONNABORTED` — which
does not contain `timeout` — and the DoS prober emits a Low
`Error Inesperado` finding instead of the Medium timeout finding. -/
theorem timeout_becomes_network_error :
    getErrorMessage timeoutAxiosError = "Network Error: ECONNABORTED" ∧
      handlePotentialDosError timeoutAxiosError "profundidad" [] =
        [createFinding .Low "Error Inesperado en Chequeo DoS (profundidad)"
          "La petición causó un error (Network Error: ECONNABORTED)."] := by
  constructor
  · decide
  · decide

/-- C9 counterexample: `inferObjectTypeFromFieldName` is not idempotent on
its own canonical outputs: it maps `Boss` to `Bos`, and `Bos` (an
already-canonicalized name) to `Bo`. -/
theorem inferObjectType_not_idempotent :
    inferObjectTypeFromFieldName "Boss" = "Bos" ∧
      inferObjectTypeFromFieldName "Bos" = "Bo" ∧
      inferObjectTypeFromFieldName (inferObjectTypeFromFieldName "Boss") ≠
        inferObjectTypeFromFieldName "Boss" := by
  refine ⟨by decide, by decide, by decide⟩

/-- C9 (amended): the function maps the claim's examples as stated and is
idempotent at those values (`User`, `users → User`, `getOrderById → Order`,
`Order`), though not on every canonical name. -/
theorem inferObjectType_examples :
    inferObjectTypeFromFieldName "User" = "User" ∧
      inferObjectTypeFromFieldName "users" = "User" ∧
      inferObjectTypeFromFieldName "getOrderById" = "Order" ∧
      inferObjectTypeFromFieldName "Order" = "Order" := by
  refine ⟨by decide, by decide, by decide, by decide⟩

/-- C6 counterexample: on a schema whose greedy deep path is a single field,
the depth-7 deep query nests only 1 field level below the root. -/
theorem deepQuery_short_path :
    nestingBelowRoot (generateDeepQuery 7 (some shortPathSchema)) = 1 ∧
      nestingBelowRoot (generateDeepQuery 7 (some shortPathSchema)) ≠ 7 := by
  constructor
  · decide
  · decide

/-- C6 (amended): the nesting depth below the query root of the generated
deep query equals the greedy schema path's length when that path is
non-empty — which is at most the requested depth but can be smaller — and
equals the requested depth exactly when the path is empty (the synthetic
`node/child…` document). -/
theorem generateDeepQuery_nesting (d : Nat) (schema : Option GSchema)
    (h : (deepQueryNames d schema).all noBrace = true) :
    nestingBelowRoot (generateDeepQuery d schema) = (deepQueryNames d schema).length ∧
      (deepQueryPath d schema).length ≤ d ∧
      ((deepQueryPath d schema).length = 0 → (deepQueryNames d schema).length = d) := by
  refine ⟨?_, ?_, ?_⟩
  · have e : generateDeepQuery d schema = renderDeepQuery (deepQueryNames d schema) := by
      unfold generateDeepQuery deepQueryNames
      dsimp only
      split <;> rfl
    rw [e]
    unfold nestingBelowRoot
    rw [maxNesting_render _ h]
    omega
  · cases schema with
    | none => simp [deepQueryPath]
    | some s =>
      simp only [deepQueryPath]
      cases hq : s.getQueryType with
      | none => simp
      | some qt =>
        simp only [hq]
        exact deepPath_length_le s qt d
  · intro h0
    unfold deepQueryNames
    dsimp only
    rw [if_neg (by omega)]
    simp [syntheticNames]

/-- C6 witness: with no schema the synthetic depth-3 document nests exactly
3 field levels below the root. -/
theorem generateDeepQuery_nesting_witness :
    (deepQueryNames 3 none).all noBrace = true ∧
      (nestingBelowRoot (generateDeepQuery 3 none) = (deepQueryNames 3 none).length ∧
        (deepQueryPath 3 none).length ≤ 3 ∧
        ((deepQueryPath 3 none).length = 0 → (deepQueryNames 3 none).length = 3)) :=
  ⟨by decide, generateDeepQuery_nesting 3 none (by decide)⟩

theorem listFieldQualifies_args_eq (l : List ArgDef) :
    (!(l.filter (fun arg => isNonNullTypeB arg.type)).any
        (fun arg => !(paginationArgNames.contains (strLower arg.name)))) =
      l.all (fun arg =>
        !isNonNullTypeB arg.type || paginationArgNames.contains (strLower arg.name)) := by
  induction l with
  | nil => rfl
  | cons a l ih =>
    by_cases hn : isNonNullTypeB a.type = true
    · rw [List.filter_cons_of_pos (by simpa using hn), List.any_cons,
        Bool.not_or, Bool.not_not, ih, List.all_cons, hn]
      simp only [Bool.not_true, Bool.false_or]
    · have hn' : isNonNullTypeB a.type = false := by simpa using hn
      rw [List.filter_cons_of_neg (by simpa using hn'), ih, List.all_cons, hn']
      simp only [Bool.not_false, Bool.true_or, Bool.true_and]

theorem listFieldQualifies_eq (fd : FieldDef) :
    listFieldQualifies fd = specListFieldQualifies fd := by
  unfold listFieldQualifies specListFieldQualifies
  dsimp only
  rw [listFieldQualifies_args_eq]

/-- C7 counterexample: in `gatedListSchema` the only root list field `users`
has the required non-pagination argument `companyId: ID!`; no field
qualifies, so `findListFields` returns the fallback names — which include
`users`, a field with a required non-pagination argument. -/
theorem findListFields_fallback_collision :
    findListFields (some gatedListSchema) = commonListNames ∧
      commonListNames.contains "users" = true ∧
      ((gatedListSchema.getQueryType.bind
          (fun qt => qt.fields.find? (fun fd => fd.name = "users"))).map
        (fun fd => fd.args.any (fun a =>
          isNonNullTypeB a.type && !(paginationArgNames.contains (strLower a.name))))) =
        some true := by
  refine ⟨by decide, by decide, by decide⟩

/-- C7 (amended): `findListFields` returns exactly the root query fields
qualifying per the spec (List after unwrapping NonNull, all required
arguments pagination-named), falling back to the hard-coded names when the
schema is null or nothing qualifies; every qualifying name corresponds to a
schema field whose required arguments are all pagination-named.  The
fallback names, however, may coincide with disqualified schema fields (see
the counterexample). -/
theorem findListFields_spec (s : GSchema) :
    findListFields (some s) =
        (if specListFields s = [] then commonListNames else specListFields s) ∧
      ∀ name ∈ specListFields s,
        ∃ fd ∈ (s.getQueryType.map (fun o => o.fields)).getD [],
          fd.name = name ∧
            fd.args.all (fun arg =>
              !isNonNullTypeB arg.type ||
                paginationArgNames.contains (strLower arg.name)) = true := by
  have hfun : listFieldQualifies = specListFieldQualifies :=
    funext listFieldQualifies_eq
  constructor
  · unfold findListFields specListFields
    cases hq : s.getQueryType with
    | none => simp [hq]
    | some qt =>
      simp only [hq]
      rw [hfun]
      cases hl : (qt.fields.filter specListFieldQualifies).map (fun f => f.name) with
      | nil => simp [hl]
      | cons x xs => simp [hl]
  · intro name hname
    unfold specListFields at hname
    cases hq : s.getQueryType with
    | none => rw [hq] at hname; simp at hname
    | some qt =>
      rw [hq] at hname
      simp only [List.mem_map] at hname
      obtain ⟨fd, hfd, rfl⟩ := hname
      rw [List.mem_filter] at hfd
      refine ⟨fd, ?_, rfl, ?_⟩
      · simp [hq, hfd.1]
      · have hq2 := hfd.2
        unfold specListFieldQualifies at hq2
        simp only [Bool.and_eq_true] at hq2
        exact hq2.2

/-- C7 witness: `openListSchema` has the single qualifying field `users`. -/
theorem findListFields_spec_witness :
    (findListFields (some openListSchema) =
        (if specListFields openListSchema = [] then commonListNames
         else specListFields openListSchema)) ∧
      "users" ∈ specListFields openListSchema ∧
      (∃ fd ∈ (openListSchema.getQueryType.map (fun o => o.fields)).getD [],
        fd.name = "users" ∧
          fd.args.all (fun arg =>
            !isNonNullTypeB arg.type ||
              paginationArgNames.contains (strLower arg.name)) = true) :=
  ⟨(findListFields_spec openListSchema).1, by decide,
    (findListFields_spec openListSchema).2 "users" (by decide)⟩

/-- C8 counterexample: a list-probe response whose GraphQL errors mention a
limit suppresses the High finding even though the returned array holds 101
items — the error check precedes the length check. -/
theorem pagination_limit_error_suppresses :
    jsArrayLen (limitedBigListBody.data.bind (fun dd => dd.lookup "users")) = 101 ∧
      dosListStep "users" (.ok limitedBigListBody) [] = [] := by
  constructor
  · decide
  · decide

/-- C8 (amended): for a 2xx list-probe response with no GraphQL error
mentioning pagination or limit, the High pagination finding (reporting the
observed length) is appended iff the field's data is an array longer than
100; the transport-error path appends at most one Medium or Low finding,
never a High one. -/
theorem dos_pagination_high_iff :
    (∀ (fieldName : String) (body : Body) (findings : List Finding),
        paginationErrors body.errors = false →
        (dosListStep fieldName (.ok body) findings =
            findings ++ [createFinding .High "Potencial DoS por Falta de Paginación"
              ("Query \x27" ++ fieldName ++ "\x27 devolvió " ++
                toString (jsArrayLen (body.data.bind (fun dd => dd.lookup fieldName))) ++
                " resultados sin paginación.")] ↔
          ∃ elems, body.data.bind (fun dd => dd.lookup fieldName) =
              some (Json.arr elems) ∧ 100 < elems.length)) ∧
    (∀ (e : JsError) (ct : String) (fs : List Finding),
        handlePotentialDosError e ct fs = fs ∨
          ∃ fd, handlePotentialDosError e ct fs = fs ++ [fd] ∧
            (fd.severity = .Medium ∨ fd.severity = .Low)) := by
  constructor
  · intro fieldName body findings hq
    unfold dosListStep
    dsimp only
    rw [if_neg (by simp [hq])]
    cases hr : body.data.bind (fun dd => dd.lookup fieldName) with
    | none =>
      simp only [hr]
      constructor
      · intro h
        exact absurd (congrArg List.length h) (by simp)
      · rintro ⟨elems, he, _⟩
        exact absurd he (by simp)
    | some v =>
      cases v with
      | arr elems =>
        simp only [hr]
        by_cases hlen : 100 < elems.length
        · rw [if_pos (by omega)]
          constructor
          · intro _
            exact ⟨elems, rfl, hlen⟩
          · intro _
            rfl
        · rw [if_neg (by omega)]
          constructor
          · intro h
            exact absurd (congrArg List.length h) (by simp)
          · rintro ⟨elems2, he, hl2⟩
            injection he with he2
            cases he2
            omega
      | null =>
        simp only [hr]
        constructor
        · intro h
          exact absurd (congrArg List.length h) (by simp)
        · rintro ⟨elems, he, _⟩
          exact absurd he (by simp)
      | bool b =>
        simp only [hr]
        constructor
        · intro h
          exact absurd (congrArg List.length h) (by simp)
        · rintro ⟨elems, he, _⟩
          exact absurd he (by simp)
      | num n =>
        simp only [hr]
        constructor
        · intro h
          exact absurd (congrArg List.length h) (by simp)
        · rintro ⟨elems, he, _⟩
          exact absurd he (by simp)
      | str s2 =>
        simp only [hr]
        constructor
        · intro h
          exact absurd (congrArg List.length h) (by simp)
        · rintro ⟨elems, he, _⟩
          exact absurd he (by simp)
      | obj kvs =>
        simp only [hr]
        constructor
        · intro h
          exact absurd (congrArg List.length h) (by simp)
        · rintro ⟨elems, he, _⟩
          exact absurd he (by simp)
  · intro e ct fs
    unfold handlePotentialDosError
    dsimp only
    split
    · exact Or.inl rfl
    · split
      · exact Or.inr ⟨_, rfl, Or.inl rfl⟩
      · exact Or.inr ⟨_, rfl, Or.inr rfl⟩

/-- C8 witness: 101 items with no errors produce the High finding. -/
theorem dos_pagination_high_iff_witness :
    paginationErrors bigListBody.errors = false ∧
      (dosListStep "users" (.ok bigListBody) [] =
          [] ++ [createFinding .High "Potencial DoS por Falta de Paginación"
            ("Query \x27" ++ "users" ++ "\x27 devolvió " ++
              toString (jsArrayLen (bigListBody.data.bind (fun dd => dd.lookup "users"))) ++
              " resultados sin paginación.")] ↔
        ∃ elems, bigListBody.data.bind (fun dd => dd.lookup "users") =
            some (Json.arr elems) ∧ 100 < elems.length) ∧
      (handlePotentialDosError timeoutAxiosError "lista users" [] = [] ∨
        ∃ fd, handlePotentialDosError timeoutAxiosError "lista users" [] = [] ++ [fd] ∧
          (fd.severity = .Medium ∨ fd.severity = .Low)) :=
  ⟨by decide, dos_pagination_high_iff.1 "users" bigListBody [] (by decide),
    dos_pagination_high_iff.2 timeoutAxiosError "lista users" []⟩

